import Mathlib

/-!
Verification of the thread session state machine of `src/bot.py`
(slack-get-bot): a shallow embedding of the per-thread state
(`conversation_memory`, `search_results_memory`, `silenced_threads`,
`active_threads`, `paused_threads`, `last_activity`), the handlers
`handle_mention` / `handle_message`, and the helpers
`is_recent_message`, `fetch_thread_history`, `summarize_search_results`,
`search_online`, `get_gpt_response`.

External collaborators (Slack history fetch, SerpAPI search, OpenAI
completion) are modeled as oracle parameters; each handler is a pure
function from (config, state, event, oracles) to (state, emitted replies).
Python strings are Lean `String`s; the Python `str` operations used by the
source (`strip`, `lower`, `startswith`, `in`, `replace`) are modeled
explicitly on `List Char` below so that all definitions reduce in the
kernel.
-/

namespace SlackGetBot

/-! ## Python string primitives -/

/-- Whitespace test used by Python `str.strip`. -/
def pyIsSpace (c : Char) : Bool := c.isWhitespace

/-- Drop leading and trailing whitespace from a char list. -/
def stripChars (l : List Char) : List Char :=
  ((l.dropWhile pyIsSpace).reverse.dropWhile pyIsSpace).reverse

/-- Python `s.strip()`. -/
def pyStrip (s : String) : String := ⟨stripChars s.data⟩

/-- Python `s.lower()` (ASCII case folding suffices for the bot's triggers). -/
def pyLower (s : String) : String := ⟨s.data.map Char.toLower⟩

/-- Python `s.startswith(pre)`. -/
def pyStartsWith (s pre : String) : Bool := pre.data.isPrefixOf s.data

/-- Helper for Python `pat in s`: does `pat` occur as a contiguous sublist? -/
def containsSubAux (pat : List Char) : List Char → Bool
  | [] => pat.isEmpty
  | c :: rest => pat.isPrefixOf (c :: rest) || containsSubAux pat rest

/-- Python `pat in s`. -/
def pyContains (s pat : String) : Bool := containsSubAux pat.data s.data

/-- Helper for Python `s.replace(pat, "")`: remove non-overlapping occurrences
of `pat` left to right. Fuel-driven so it reduces in the kernel; fuel
`s.length` is enough since every step consumes at least one character. -/
def removeAllAux (pat : List Char) : Nat → List Char → List Char
  | 0, l => l
  | _ + 1, [] => []
  | fuel + 1, c :: rest =>
    if pat.isPrefixOf (c :: rest) then removeAllAux pat fuel ((c :: rest).drop pat.length)
    else c :: removeAllAux pat fuel rest

/-- Python `s.replace(pat, "")`. -/
def pyRemoveAll (s pat : String) : String := ⟨removeAllAux pat.data s.data.length s.data⟩

/-! ## Constants (src/bot.py lines 52-54) -/

def MAX_TOKENS_PER_THREAD : Nat := 5000

def MAX_MESSAGES_TO_KEEP : Nat := 30

/-- Python `lst[-n:]` for `n > 0`: the most recent `n` entries (all if fewer). -/
def takeLast {α : Type} (n : Nat) (l : List α) : List α := l.drop (l.length - n)

/-! ## Data model -/

/-- One chat message dict `{"role": ..., "content": ...}`. -/
structure Message where
  role : String
  content : String
deriving DecidableEq, Repr

/-- Value stored in `search_results_memory[thread_ts]` (bot.py lines 116-119). -/
structure SearchCache where
  results : String
  summary : String
deriving DecidableEq, Repr

/-- Module-level configuration: env credentials/ids (bot.py lines 15-19), the
bot id fetched at startup (line 38), the process start time (line 41) and the
expiration constant (line 54, part of the configuration surface). -/
structure Config where
  SLACK_BOT_ID : String
  SLACK_CHANNEL_ID : String
  SERPAPI_API_KEY : String
  BOT_START_TIME : Int
  INACTIVE_THREAD_EXPIRATION : Nat

/-- The process-wide mutable maps/sets of bot.py lines 43-49, keyed by thread
timestamp. `none` / `false` means the key is absent from the dict/set. -/
structure BotState where
  conversation_memory : String → Option (List Message)
  search_results_memory : String → Option SearchCache
  silenced_threads : String → Bool
  active_threads : String → Bool
  paused_threads : String → Bool
  last_activity : String → Option Int

/-- Pointwise map/set update (dict assignment / set add-remove). -/
def upd {α : Type} (f : String → α) (k : String) (v : α) : String → α :=
  fun x => if x = k then v else f x

/-- The state at process start: all maps empty, all sets empty. -/
def initState : BotState :=
  ⟨fun _ => none, fun _ => none, fun _ => false, fun _ => false, fun _ => false, fun _ => none⟩

/-! ## Events and oracles -/

/-- An inbound Slack event. `ts_val` is the numeric value `float(event["ts"])`;
`thread_ts = none` models a missing `"thread_ts"` key. Timestamps are modeled
as integers (only their ordering matters to the code). -/
structure SlackEvent where
  text : String
  ts : String
  ts_val : Int
  thread_ts : Option String
  channel : String

/-- Result of one `openai.ChatCompletion.create` call (bot.py lines 141-151):
a reply, a `RateLimitError`, or any other exception rendered as a string. -/
inductive OpenAIResult where
  | ok (reply : String)
  | rateLimit
  | err (msg : String)

/-- One SerpAPI `organic_results` item; only `title` and `link` are read. -/
structure SearchItem where
  title : String
  link : String
deriving DecidableEq, Repr

/-- Result of `GoogleSearch(params).get_dict()`: a thrown exception, or a
dict whose `organic_results` key is absent (`dict none`) or present. -/
inductive SerpResult where
  | exn
  | dict (organic : Option (List SearchItem))

/-- Oracles for the external collaborators touched while handling one event:
`fetchResult` is `conversations_replies` (each message's optional `"text"`
field; `none` overall = exception), `now` is `time.time()`, `serp` maps the
query sent to the SerpAPI outcome, `summarize` maps the text summarized to
the OpenAI summary (or `none` = exception), `completion` maps the context
messages sent to the ChatCompletion outcome. -/
structure Oracles where
  fetchResult : Option (List (Option String))
  now : Int
  serp : String → SerpResult
  summarize : String → Option String
  completion : List Message → OpenAIResult

/-! ## Operations (bot.py lines 56-151) -/

/-- bot.py lines 56-58. -/
def is_recent_message (cfg : Config) (event_ts : Int) : Bool :=
  event_ts > cfg.BOT_START_TIME

/-- bot.py lines 60-74: on success, create the history entry if absent,
append every fetched message that has a `"text"` field as a user turn, and
update `last_activity`; on exception, leave the state unchanged and
return `[]`. The channel is passed through to the Slack call only. -/
def fetch_thread_history (st : BotState) (_channel thread_ts : String)
    (oracle : Option (List (Option String))) (now : Int) :
    BotState × List (Option String) :=
  match oracle with
  | none => (st, [])
  | some messages =>
    let hist := (st.conversation_memory thread_ts).getD []
    let newHist := hist ++ (messages.filterMap id).map (fun txt => ⟨"user", txt⟩)
    ({ st with
        conversation_memory := upd st.conversation_memory thread_ts (some newHist),
        last_activity := upd st.last_activity thread_ts (some now) },
     messages)

/-- bot.py lines 76-91: the summary, or an error placeholder on exception. -/
def summarize_search_results (search_results : String)
    (oracle : String → Option String) : String :=
  match oracle search_results with
  | some summary => summary
  | none => "❌ Error summarizing search results."

/-- bot.py lines 93-126: missing key, thrown exception and missing
`organic_results` all return an error string without touching the state;
otherwise the first five results are formatted, summarized, cached under the
thread and echoed in the combined reply. -/
def search_online (cfg : Config) (st : BotState) (query thread_ts : String)
    (serp : String → SerpResult) (sumOracle : String → Option String) :
    BotState × String :=
  if cfg.SERPAPI_API_KEY = "" then (st, "❌ Search API key is missing.")
  else
    match serp query with
    | .exn => (st, "❌ Error fetching search results.")
    | .dict none => (st, "❌ No search results found.")
    | .dict (some items) =>
      let search_results :=
        (items.take 5).map (fun item => "🔹 *" ++ item.title ++ "* - <" ++ item.link ++ ">")
      let formatted_results :=
        if search_results = [] then "⚠️ No relevant results found."
        else String.intercalate "\n" search_results
      let summary := summarize_search_results formatted_results sumOracle
      ({ st with
          search_results_memory :=
            upd st.search_results_memory thread_ts (some ⟨formatted_results, summary⟩) },
       "🔎 *Google Search Results for:* `" ++ query ++ "`\n" ++ formatted_results ++
         "\n\n📝 *Summary of Results:*\n" ++ summary)

/-- bot.py lines 130-131: `if thread_id not in conversation_memory:
conversation_memory[thread_id] = []`. -/
def ensure_key (st : BotState) (thread_id : String) : BotState :=
  if (st.conversation_memory thread_id).isSome then st
  else { st with conversation_memory := upd st.conversation_memory thread_id (some []) }

/-- bot.py lines 133-138: the context sent to the completion service — an
optional system entry carrying the cached raw search results, then the last
`MAX_MESSAGES_TO_KEEP` stored history entries, then the new user message. -/
def context_messages (st : BotState) (thread_id user_input : String) : List Message :=
  (match st.search_results_memory thread_id with
   | some cache => [⟨"system", "Previous search results:\n" ++ cache.results⟩]
   | none => []) ++
  takeLast MAX_MESSAGES_TO_KEEP ((st.conversation_memory thread_id).getD []) ++
  [⟨"user", user_input⟩]

/-- bot.py lines 128-151: ensure the history entry exists, build the context,
call the completion service on it; on success append the assistant turn and
return the reply, on `RateLimitError` or any other exception return the
corresponding error text with no history change. -/
def get_gpt_response (st : BotState) (thread_id user_input : String)
    (completion : List Message → OpenAIResult) : BotState × String :=
  let st1 := ensure_key st thread_id
  match completion (context_messages st1 thread_id user_input) with
  | .ok reply =>
    ({ st1 with
        conversation_memory :=
          upd st1.conversation_memory thread_id
            (some (((st1.conversation_memory thread_id).getD []) ++ [⟨"assistant", reply⟩])) },
     reply)
  | .rateLimit => (st1, "⚠️ OpenAI API quota exceeded. Please try again later.")
  | .err e => (st1, "❌ An error occurred: " ++ e)

/-! ## Event handlers (bot.py lines 153-222) -/

/-- An outbound `say(text=..., thread_ts=...)` call. -/
structure Reply where
  text : String
  thread_ts : String
deriving DecidableEq, Repr

/-- `event.get("thread_ts") or event["ts"]`: Python `or` falls through on a
missing key and on an empty string. -/
def event_thread_ts (ev : SlackEvent) : String :=
  match ev.thread_ts with
  | some t => if t = "" then ev.ts else t
  | none => ev.ts

/-- `f"<@{SLACK_BOT_ID}>"` (bot.py line 168). -/
def mention_token (cfg : Config) : String := "<@" ++ cfg.SLACK_BOT_ID ++ ">"

/-- bot.py line 189 / 216: `text.replace("search:", "").strip()`. -/
def search_query (text : String) : String := pyStrip (pyRemoveAll text "search:")

/-- bot.py lines 153-195 (`app_mention` handler). Branch order as in the
source: stale-event drop, activate, history fetch, exact mention
(reactivate / greet), silence trigger, silenced drop, search command, chat. -/
def handle_mention (cfg : Config) (st : BotState) (ev : SlackEvent) (o : Oracles) :
    BotState × List Reply :=
  let text := pyStrip ev.text
  let thread_ts := event_thread_ts ev
  if ¬ is_recent_message cfg ev.ts_val then (st, [])
  else
    let st1 :=
      if st.active_threads thread_ts then st
      else { st with active_threads := upd st.active_threads thread_ts true }
    let st2 := (fetch_thread_history st1 ev.channel thread_ts o.fetchResult o.now).1
    if pyStrip text = mention_token cfg then
      if st2.silenced_threads thread_ts then
        ({ st2 with silenced_threads := upd st2.silenced_threads thread_ts false },
         [⟨"🔄 Bot is now active again!", thread_ts⟩])
      else (st2, [⟨"👋 Hello! How can I help you today?", thread_ts⟩])
    else if pyContains (pyLower text) "@killbot" then
      ({ st2 with silenced_threads := upd st2.silenced_threads thread_ts true },
       [⟨"🔇 Bot silenced for this thread. Tag me again to wake me up.", thread_ts⟩])
    else if st2.silenced_threads thread_ts then (st2, [])
    else if pyStartsWith (pyLower text) "search:" then
      let r := search_online cfg st2 (search_query text) thread_ts o.serp o.summarize
      (r.1, [⟨r.2, thread_ts⟩])
    else
      let r := get_gpt_response st2 thread_ts text o.completion
      (r.1, [⟨r.2, thread_ts⟩])

/-- bot.py lines 197-222 (`message` handler). Branch order as in the source:
stale-event drop, silenced/paused/inactive drop, silence trigger, search
command, chat. No activation and no history fetch happen here. -/
def handle_message (cfg : Config) (st : BotState) (ev : SlackEvent) (o : Oracles) :
    BotState × List Reply :=
  let text := pyStrip ev.text
  let thread_ts := event_thread_ts ev
  if ¬ is_recent_message cfg ev.ts_val then (st, [])
  else if st.silenced_threads thread_ts || st.paused_threads thread_ts ||
      ¬ st.active_threads thread_ts then (st, [])
  else if pyContains (pyLower text) "@killbot" then
    ({ st with silenced_threads := upd st.silenced_threads thread_ts true },
     [⟨"🔇 Bot silenced for this thread.", thread_ts⟩])
  else if pyStartsWith (pyLower text) "search:" then
    let r := search_online cfg st (search_query text) thread_ts o.serp o.summarize
    (r.1, [⟨r.2, thread_ts⟩])
  else
    let r := get_gpt_response st thread_ts text o.completion
    (r.1, [⟨r.2, thread_ts⟩])

/-! ## Concrete fixtures used by witnesses and counterexamples -/

/-- A concrete configuration: bot id `B`, channel `C`, SerpAPI key `k`,
process start time `0`. -/
def cfgA : Config := ⟨"B", "C", "k", 0, 86400⟩

/-- Oracles where every external call succeeds: empty history fetch, one
search result `(T, L)`, summary `S`, completion reply `r`. -/
def oracleA : Oracles :=
  ⟨some [], 5, fun _ => .dict (some [⟨"T", "L"⟩]), fun _ => some "S", fun _ => .ok "r"⟩

/-- A state in which thread `100` is silenced. -/
def stSilA : BotState :=
  { initState with silenced_threads := upd initState.silenced_threads "100" true }

/-- A state in which thread `100` is active. -/
def stActA : BotState :=
  { initState with active_threads := upd initState.active_threads "100" true }

/-- A state in which thread `100` is active and already holds one history
entry (as after a first backfill). -/
def stC6A : BotState :=
  { initState with
      active_threads := upd initState.active_threads "100" true,
      conversation_memory := upd initState.conversation_memory "100" (some [⟨"user", "a"⟩]) }

/-- Oracles whose history fetch returns the single message `a`. -/
def oracleC6 : Oracles :=
  ⟨some [some "a"], 5, fun _ => .dict none, fun _ => none, fun _ => .rateLimit⟩

/-- Oracles whose history fetch returns 31 text messages. -/
def oracleFetch31 : Oracles :=
  ⟨some (List.replicate 31 (some "x")), 5, fun _ => .dict none, fun _ => none, fun _ => .rateLimit⟩

/-- An event in channel `C` on thread `100` with timestamp 5 (after start). -/
def evA (txt : String) : SlackEvent := ⟨txt, "100", 5, none, "C"⟩

/-- Oracles whose completion call succeeds with reply `yo`. -/
def oracleOkYo : Oracles :=
  ⟨some [], 5, fun _ => .dict none, fun _ => none, fun _ => .ok "yo"⟩

/-- A state in which thread `100` holds one history entry and a search cache
entry with raw results `R` and summary `S`. -/
def stCacheA : BotState :=
  { initState with
      conversation_memory := upd initState.conversation_memory "100" (some [⟨"user", "a"⟩]),
      search_results_memory := upd initState.search_results_memory "100" (some ⟨"R", "S"⟩) }

/-- `Mono st st'` records the monotone part of one event-processing step:
stored history is extended in place (old entries form a prefix of the new),
map/set entries of the history map, search cache, active set and
last-activity map are never deleted, and the paused set is never touched. -/
def Mono (st st' : BotState) : Prop :=
  (∀ k, ((st.conversation_memory k).getD []) <+: ((st'.conversation_memory k).getD [])) ∧
  (∀ k, (st.conversation_memory k).isSome → (st'.conversation_memory k).isSome) ∧
  (∀ k, (st.search_results_memory k).isSome → (st'.search_results_memory k).isSome) ∧
  (∀ k, st.active_threads k = true → st'.active_threads k = true) ∧
  (∀ k, st'.paused_threads k = st.paused_threads k) ∧
  (∀ k, (st.last_activity k).isSome → (st'.last_activity k).isSome)

/-! ## Helper lemmas -/

theorem upd_self {α : Type} (f : String → α) (k : String) (v : α) : upd f k v k = v := by
  simp [upd]

theorem upd_other {α : Type} (f : String → α) (k x : String) (v : α) (h : x ≠ k) :
    upd f k v x = f x := by
  simp [upd, h]

theorem string_data_append (a b : String) : (a ++ b).data = a.data ++ b.data := by
  cases a; cases b; rfl

theorem takeLast_length {α : Type} (n : Nat) (l : List α) :
    (takeLast n l).length = min l.length n := by
  simp [takeLast]
  omega

theorem takeLast_suffix {α : Type} (n : Nat) (l : List α) : takeLast n l <:+ l := by
  exact ⟨l.take (l.length - n), List.take_append_drop _ l⟩

theorem takeLast_length_le {α : Type} (n : Nat) (l : List α) : (takeLast n l).length ≤ n := by
  rw [takeLast_length]; omega

/-- The two user-visible completion error texts differ from any `.err` text. -/
theorem quota_text_ne_err_text (e : String) :
    "⚠️ OpenAI API quota exceeded. Please try again later." ≠
      "❌ An error occurred: " ++ e := by
  intro h
  have h1 := congrArg (fun s => s.data.head?) h
  simp only [string_data_append] at h1
  rw [show ("⚠️ OpenAI API quota exceeded. Please try again later.").data.head? = some '⚠'
    from rfl] at h1
  simp at h1

/-! ## Per-operation state lemmas -/

theorem fetch_srm (st : BotState) (c t : String) (o : Option (List (Option String))) (n : Int) :
    (fetch_thread_history st c t o n).1.search_results_memory = st.search_results_memory := by
  cases o <;> rfl

theorem fetch_sil (st : BotState) (c t : String) (o : Option (List (Option String))) (n : Int) :
    (fetch_thread_history st c t o n).1.silenced_threads = st.silenced_threads := by
  cases o <;> rfl

theorem fetch_act (st : BotState) (c t : String) (o : Option (List (Option String))) (n : Int) :
    (fetch_thread_history st c t o n).1.active_threads = st.active_threads := by
  cases o <;> rfl

theorem fetch_paused (st : BotState) (c t : String) (o : Option (List (Option String))) (n : Int) :
    (fetch_thread_history st c t o n).1.paused_threads = st.paused_threads := by
  cases o <;> rfl

theorem fetch_conv_extends (st : BotState) (c t : String) (o : Option (List (Option String)))
    (n : Int) (k : String) :
    ((st.conversation_memory k).getD []) <+:
      (((fetch_thread_history st c t o n).1.conversation_memory k).getD []) := by
  cases o with
  | none => exact List.prefix_refl _
  | some msgs =>
    by_cases hk : k = t
    · subst hk
      simp [fetch_thread_history, upd]
    · simp [fetch_thread_history, upd, hk]

theorem fetch_conv_isSome (st : BotState) (c t : String) (o : Option (List (Option String)))
    (n : Int) (k : String) (h : (st.conversation_memory k).isSome) :
    ((fetch_thread_history st c t o n).1.conversation_memory k).isSome := by
  cases o with
  | none => exact h
  | some msgs => by_cases hk : k = t <;> simp [fetch_thread_history, upd, hk, h]

theorem fetch_la_isSome (st : BotState) (c t : String) (o : Option (List (Option String)))
    (n : Int) (k : String) (h : (st.last_activity k).isSome) :
    ((fetch_thread_history st c t o n).1.last_activity k).isSome := by
  cases o with
  | none => exact h
  | some msgs => by_cases hk : k = t <;> simp [fetch_thread_history, upd, hk, h]

/-- The exact effect of a successful history fetch at the fetched thread. -/
theorem fetch_conv_at_key (st : BotState) (c t : String) (msgs : List (Option String)) (n : Int) :
    (fetch_thread_history st c t (some msgs) n).1.conversation_memory t =
      some (((st.conversation_memory t).getD []) ++
        (msgs.filterMap id).map (fun txt => ⟨"user", txt⟩)) := by
  simp [fetch_thread_history, upd]

theorem gpt_srm (st : BotState) (t u : String) (compl : List Message → OpenAIResult) :
    (get_gpt_response st t u compl).1.search_results_memory = st.search_results_memory := by
  unfold get_gpt_response ensure_key
  split <;> (dsimp only; split <;> rfl)

theorem gpt_sil (st : BotState) (t u : String) (compl : List Message → OpenAIResult) :
    (get_gpt_response st t u compl).1.silenced_threads = st.silenced_threads := by
  unfold get_gpt_response ensure_key
  split <;> (dsimp only; split <;> rfl)

theorem gpt_act (st : BotState) (t u : String) (compl : List Message → OpenAIResult) :
    (get_gpt_response st t u compl).1.active_threads = st.active_threads := by
  unfold get_gpt_response ensure_key
  split <;> (dsimp only; split <;> rfl)

theorem gpt_paused (st : BotState) (t u : String) (compl : List Message → OpenAIResult) :
    (get_gpt_response st t u compl).1.paused_threads = st.paused_threads := by
  unfold get_gpt_response ensure_key
  split <;> (dsimp only; split <;> rfl)

theorem gpt_la (st : BotState) (t u : String) (compl : List Message → OpenAIResult) :
    (get_gpt_response st t u compl).1.last_activity = st.last_activity := by
  unfold get_gpt_response ensure_key
  split <;> (dsimp only; split <;> rfl)

theorem ensure_key_conv_getD (st : BotState) (t k : String) :
    ((ensure_key st t).conversation_memory k).getD [] = (st.conversation_memory k).getD [] := by
  unfold ensure_key
  split
  · rfl
  · rename_i h
    by_cases hk : k = t
    · subst hk
      simp only [upd_self]
      cases hcv : st.conversation_memory k with
      | none => simp
      | some l => simp [hcv] at h
    · simp [upd, hk]

theorem gpt_conv_extends (st : BotState) (t u : String) (compl : List Message → OpenAIResult)
    (k : String) :
    ((st.conversation_memory k).getD []) <+:
      (((get_gpt_response st t u compl).1.conversation_memory k).getD []) := by
  unfold get_gpt_response
  dsimp only
  split
  · by_cases hk : k = t
    · subst hk
      simp [upd, ensure_key_conv_getD]
    · simp [upd, hk, ensure_key_conv_getD]
  · rw [ensure_key_conv_getD]
  · rw [ensure_key_conv_getD]

theorem gpt_conv_isSome (st : BotState) (t u : String) (compl : List Message → OpenAIResult)
    (k : String) (h : (st.conversation_memory k).isSome) :
    ((get_gpt_response st t u compl).1.conversation_memory k).isSome := by
  have hek : ((ensure_key st t).conversation_memory k).isSome := by
    unfold ensure_key
    split
    · exact h
    · by_cases hk : k = t <;> simp [upd, hk, h]
  unfold get_gpt_response
  dsimp only
  split
  · by_cases hk : k = t <;> simp [upd, hk, hek]
  · exact hek
  · exact hek

theorem search_conv (cfg : Config) (st : BotState) (q t : String) (serp : String → SerpResult)
    (sumo : String → Option String) :
    (search_online cfg st q t serp sumo).1.conversation_memory = st.conversation_memory := by
  unfold search_online
  split
  · rfl
  · split <;> rfl

theorem search_sil (cfg : Config) (st : BotState) (q t : String) (serp : String → SerpResult)
    (sumo : String → Option String) :
    (search_online cfg st q t serp sumo).1.silenced_threads = st.silenced_threads := by
  unfold search_online
  split
  · rfl
  · split <;> rfl

theorem search_act (cfg : Config) (st : BotState) (q t : String) (serp : String → SerpResult)
    (sumo : String → Option String) :
    (search_online cfg st q t serp sumo).1.active_threads = st.active_threads := by
  unfold search_online
  split
  · rfl
  · split <;> rfl

theorem search_paused (cfg : Config) (st : BotState) (q t : String) (serp : String → SerpResult)
    (sumo : String → Option String) :
    (search_online cfg st q t serp sumo).1.paused_threads = st.paused_threads := by
  unfold search_online
  split
  · rfl
  · split <;> rfl

theorem search_la (cfg : Config) (st : BotState) (q t : String) (serp : String → SerpResult)
    (sumo : String → Option String) :
    (search_online cfg st q t serp sumo).1.last_activity = st.last_activity := by
  unfold search_online
  split
  · rfl
  · split <;> rfl

theorem search_srm_isSome (cfg : Config) (st : BotState) (q t : String)
    (serp : String → SerpResult) (sumo : String → Option String) (k : String)
    (h : (st.search_results_memory k).isSome) :
    ((search_online cfg st q t serp sumo).1.search_results_memory k).isSome := by
  unfold search_online
  split
  · exact h
  · split
    · exact h
    · exact h
    · by_cases hk : k = t <;> simp [upd, hk, h]

/-- The reply text of `search_online` does not depend on the incoming state. -/
theorem search_reply_indep (cfg : Config) (st st' : BotState) (q t : String)
    (serp : String → SerpResult) (sumo : String → Option String) :
    (search_online cfg st q t serp sumo).2 = (search_online cfg st' q t serp sumo).2 := by
  unfold search_online
  split
  · rfl
  · split <;> rfl

/-! ## Mono framework -/

theorem Mono.rfl (st : BotState) : Mono st st :=
  ⟨fun _ => List.prefix_refl _, fun _ h => h, fun _ h => h, fun _ h => h,
   fun _ => Eq.refl _, fun _ h => h⟩

theorem Mono.trans {a b c : BotState} (h1 : Mono a b) (h2 : Mono b c) : Mono a c :=
  ⟨fun k => (h1.1 k).trans (h2.1 k),
   fun k h => h2.2.1 k (h1.2.1 k h),
   fun k h => h2.2.2.1 k (h1.2.2.1 k h),
   fun k h => h2.2.2.2.1 k (h1.2.2.2.1 k h),
   fun k => (h2.2.2.2.2.1 k).trans (h1.2.2.2.2.1 k),
   fun k h => h2.2.2.2.2.2 k (h1.2.2.2.2.2 k h)⟩

theorem mono_fetch (st : BotState) (c t : String) (o : Option (List (Option String))) (n : Int) :
    Mono st (fetch_thread_history st c t o n).1 :=
  ⟨fun k => fetch_conv_extends st c t o n k,
   fun k h => fetch_conv_isSome st c t o n k h,
   fun k => by rw [fetch_srm]; exact id,
   fun k => by rw [fetch_act]; exact id,
   fun k => by rw [fetch_paused],
   fun k h => fetch_la_isSome st c t o n k h⟩

theorem mono_gpt (st : BotState) (t u : String) (compl : List Message → OpenAIResult) :
    Mono st (get_gpt_response st t u compl).1 :=
  ⟨fun k => gpt_conv_extends st t u compl k,
   fun k h => gpt_conv_isSome st t u compl k h,
   fun k => by rw [gpt_srm]; exact id,
   fun k => by rw [gpt_act]; exact id,
   fun k => by rw [gpt_paused],
   fun k => by rw [gpt_la]; exact id⟩

theorem mono_search (cfg : Config) (st : BotState) (q t : String) (serp : String → SerpResult)
    (sumo : String → Option String) :
    Mono st (search_online cfg st q t serp sumo).1 :=
  ⟨fun k => by rw [search_conv],
   fun k => by rw [search_conv]; exact id,
   fun k h => search_srm_isSome cfg st q t serp sumo k h,
   fun k => by rw [search_act]; exact id,
   fun k => by rw [search_paused],
   fun k => by rw [search_la]; exact id⟩

theorem mono_activate (st : BotState) (t : String) :
    Mono st { st with active_threads := upd st.active_threads t true } :=
  ⟨fun _ => List.prefix_refl _, fun _ h => h, fun _ h => h,
   fun k h => by by_cases hk : k = t <;> simp [upd, hk, h],
   fun _ => Eq.refl _, fun _ h => h⟩

theorem mono_silenced_update (st : BotState) (f : String → Bool) :
    Mono st { st with silenced_threads := f } :=
  ⟨fun _ => List.prefix_refl _, fun _ h => h, fun _ h => h, fun _ h => h,
   fun _ => Eq.refl _, fun _ h => h⟩

set_option maxHeartbeats 1000000

/-- Every mention event processes into a state extension: nothing is evicted. -/
theorem handle_mention_mono (cfg : Config) (st : BotState) (ev : SlackEvent) (o : Oracles) :
    Mono st (handle_mention cfg st ev o).1 := by
  unfold handle_mention
  dsimp only
  split_ifs
  · exact (mono_fetch _ _ _ _ _).trans (mono_silenced_update _ _)
  · exact mono_fetch _ _ _ _ _
  · exact ((mono_activate _ _).trans (mono_fetch _ _ _ _ _)).trans (mono_silenced_update _ _)
  · exact (mono_activate _ _).trans (mono_fetch _ _ _ _ _)
  · exact (mono_fetch _ _ _ _ _).trans (mono_silenced_update _ _)
  · exact ((mono_activate _ _).trans (mono_fetch _ _ _ _ _)).trans (mono_silenced_update _ _)
  · exact mono_fetch _ _ _ _ _
  · exact (mono_fetch _ _ _ _ _).trans (mono_search _ _ _ _ _ _)
  · exact (mono_fetch _ _ _ _ _).trans (mono_gpt _ _ _ _)
  · exact (mono_activate _ _).trans (mono_fetch _ _ _ _ _)
  · exact ((mono_activate _ _).trans (mono_fetch _ _ _ _ _)).trans (mono_search _ _ _ _ _ _)
  · exact ((mono_activate _ _).trans (mono_fetch _ _ _ _ _)).trans (mono_gpt _ _ _ _)
  · exact Mono.rfl st

/-- Every passive-message event processes into a state extension as well. -/
theorem handle_message_mono (cfg : Config) (st : BotState) (ev : SlackEvent) (o : Oracles) :
    Mono st (handle_message cfg st ev o).1 := by
  unfold handle_message
  dsimp only
  split_ifs <;>
    first
      | exact Mono.rfl _
      | exact mono_silenced_update _ _
      | exact mono_search _ _ _ _ _ _
      | exact mono_gpt _ _ _ _

/-- A passive message never un-silences a thread. -/
theorem handle_message_silenced_mono (cfg : Config) (st : BotState) (ev : SlackEvent)
    (o : Oracles) (k : String) (h : st.silenced_threads k = true) :
    (handle_message cfg st ev o).1.silenced_threads k = true := by
  unfold handle_message
  dsimp only
  split_ifs <;> simp_all [search_sil, gpt_sil, upd]

/-- A mention can only un-silence the thread of an exact-mention event. -/
theorem handle_mention_silenced_cases (cfg : Config) (st : BotState) (ev : SlackEvent)
    (o : Oracles) (k : String) (h : st.silenced_threads k = true) :
    (handle_mention cfg st ev o).1.silenced_threads k = true ∨
      (pyStrip (pyStrip ev.text) = mention_token cfg ∧ k = event_thread_ts ev) := by
  unfold handle_mention
  dsimp only
  split_ifs
  · rename_i hrec hmt hact hsil
    by_cases hk : k = event_thread_ts ev
    · exact Or.inr ⟨hmt, hk⟩
    · refine Or.inl ?_
      simp only [upd]
      rw [if_neg hk]
      simp only [fetch_sil]
      exact h
  · exact Or.inl (by simp only [fetch_sil]; exact h)
  · rename_i hrec hmt hact hsil
    by_cases hk : k = event_thread_ts ev
    · exact Or.inr ⟨hmt, hk⟩
    · refine Or.inl ?_
      simp only [upd]
      rw [if_neg hk]
      simp only [fetch_sil]
      exact h
  · exact Or.inl (by simp only [fetch_sil]; exact h)
  · refine Or.inl ?_
    by_cases hk : k = event_thread_ts ev
    · simp [upd, hk]
    · simp only [upd]
      rw [if_neg hk]
      simp only [fetch_sil]
      exact h
  · refine Or.inl ?_
    by_cases hk : k = event_thread_ts ev
    · simp [upd, hk]
    · simp only [upd]
      rw [if_neg hk]
      simp only [fetch_sil]
      exact h
  · exact Or.inl (by simp only [fetch_sil]; exact h)
  · exact Or.inl (by simp only [search_sil, fetch_sil]; exact h)
  · exact Or.inl (by simp only [gpt_sil, fetch_sil]; exact h)
  · exact Or.inl (by simp only [fetch_sil]; exact h)
  · exact Or.inl (by simp only [search_sil, fetch_sil]; exact h)
  · exact Or.inl (by simp only [gpt_sil, fetch_sil]; exact h)
  · exact Or.inl h

/-! ## C1: history retention cap -/

/-- C1 counterexample: a single mention event whose backfill fetch returns 31
messages leaves a stored history of 31 entries — more than
`MAX_MESSAGES_TO_KEEP = 30`. The stored history is never trimmed to the cap. -/
theorem c1_counterexample :
    (((handle_mention cfgA initState (evA "<@B>") oracleFetch31).1.conversation_memory
        "100").getD []).length = 31 ∧
    MAX_MESSAGES_TO_KEEP < 31 := by
  constructor <;> decide

/-- C1 amended: appends never drop stored entries — after any mention or
message event the old stored history of every thread is a prefix of the new
one (so stored history grows without bound) — and the
`MAX_MESSAGES_TO_KEEP` cap applies only to the context slice, which is the
most recent at-most-`MAX_MESSAGES_TO_KEEP` stored entries in order (a suffix
of the stored history), placed between the optional system entry and the new
user message. -/
theorem c1_amended_retention (cfg : Config) (st : BotState) (ev : SlackEvent) (o : Oracles)
    (k t u : String) :
    ((st.conversation_memory k).getD []) <+:
      (((handle_mention cfg st ev o).1.conversation_memory k).getD []) ∧
    ((st.conversation_memory k).getD []) <+:
      (((handle_message cfg st ev o).1.conversation_memory k).getD []) ∧
    (takeLast MAX_MESSAGES_TO_KEEP ((st.conversation_memory t).getD [])).length ≤
      MAX_MESSAGES_TO_KEEP ∧
    takeLast MAX_MESSAGES_TO_KEEP ((st.conversation_memory t).getD []) <:+
      ((st.conversation_memory t).getD []) ∧
    (∃ sys : List Message,
      context_messages st t u =
        sys ++ takeLast MAX_MESSAGES_TO_KEEP ((st.conversation_memory t).getD []) ++
          [⟨"user", u⟩]) := by
  refine ⟨(handle_mention_mono cfg st ev o).1 k, (handle_message_mono cfg st ev o).1 k,
    takeLast_length_le _ _, takeLast_suffix _ _, ?_⟩
  unfold context_messages
  cases st.search_results_memory t with
  | none => exact ⟨[], by simp⟩
  | some c => exact ⟨[⟨"system", "Previous search results:\n" ++ c.results⟩], by simp⟩

/-! ## C2: silence precedence -/

/-- C2 counterexample: in a silenced thread, a mention event whose text is not
the exact bot-mention token but contains the silence trigger still emits a
reply (the silence acknowledgment), because the `@killbot` check precedes the
silenced check in `handle_mention`. -/
theorem c2_counterexample :
    stSilA.silenced_threads "100" = true ∧
    pyStrip (pyStrip "hey @killbot again") ≠ mention_token cfgA ∧
    (handle_mention cfgA stSilA (evA "hey @killbot again") oracleA).2 =
      [⟨"🔇 Bot silenced for this thread. Tag me again to wake me up.", "100"⟩] := by
  refine ⟨by decide, by decide, by decide⟩

/-- C2 amended: once a thread is silenced, a passive message event never
emits a reply, and a mention event emits no reply unless its text is the
exact bot-mention token (reactivation) or contains the silence trigger
`@killbot` (which re-acknowledges the silencing). -/
theorem c2_amended_silence_precedence (cfg : Config) (st : BotState) (ev : SlackEvent)
    (o : Oracles) (h : st.silenced_threads (event_thread_ts ev) = true) :
    (handle_message cfg st ev o).2 = [] ∧
    (pyStrip (pyStrip ev.text) ≠ mention_token cfg →
      pyContains (pyLower (pyStrip ev.text)) "@killbot" = false →
      (handle_mention cfg st ev o).2 = []) := by
  constructor
  · unfold handle_message
    dsimp only
    split_ifs <;> simp_all
  · intro hmt hkb
    unfold handle_mention
    dsimp only
    split_ifs <;> simp_all [fetch_sil]

/-- Witness for C2 amended at a concrete input: thread `100` silenced, the
passive message `hello?` and the mention `hello?` both produce no reply. -/
theorem c2_amended_witness :
    stSilA.silenced_threads "100" = true ∧
    (handle_message cfgA stSilA (evA "hello?") oracleA).2 = [] ∧
    (handle_mention cfgA stSilA (evA "hello?") oracleA).2 = [] := by
  refine ⟨by decide, ?_, ?_⟩
  · exact (c2_amended_silence_precedence cfgA stSilA (evA "hello?") oracleA (by decide)).1
  · exact (c2_amended_silence_precedence cfgA stSilA (evA "hello?") oracleA (by decide)).2
      (by decide) (by decide)

/-! ## C6: history backfill on mentions -/

/-- C6 counterexample: thread `100` is already active with stored history
`[user a]`; a further mention event re-fetches the thread history and
re-appends it, leaving `[user a, user a]`. The backfill is not once-per-
thread. -/
theorem c6_counterexample :
    stC6A.active_threads "100" = true ∧
    stC6A.conversation_memory "100" = some [⟨"user", "a"⟩] ∧
    (handle_mention cfgA stC6A (evA "<@B>") oracleC6).1.conversation_memory "100" =
      some [⟨"user", "a"⟩, ⟨"user", "a"⟩] := by
  refine ⟨by decide, by decide, by decide⟩

/-- C6 amended: every recent mention event — whether or not the thread is
already active — triggers a thread-history fetch whose messages are appended
to the stored history, and leaves the thread active. -/
theorem c6_amended_backfill_every_mention (cfg : Config) (st : BotState) (ev : SlackEvent)
    (o : Oracles) (msgs : List (Option String))
    (hrec : is_recent_message cfg ev.ts_val = true) (hf : o.fetchResult = some msgs) :
    ((((st.conversation_memory (event_thread_ts ev)).getD []) ++
        (msgs.filterMap id).map (fun txt => ⟨"user", txt⟩)) <+:
      (((handle_mention cfg st ev o).1.conversation_memory (event_thread_ts ev)).getD [])) ∧
    (handle_mention cfg st ev o).1.active_threads (event_thread_ts ev) = true := by
  unfold handle_mention
  dsimp only
  split_ifs <;> try simp_all
  all_goals constructor
  all_goals
    first
      | (refine List.IsPrefix.trans ?_ (gpt_conv_extends _ _ _ _ _)
         simp only [hf, fetch_conv_at_key, Option.getD_some]
         exact List.prefix_refl _)
      | (simp only [hf, fetch_conv_at_key, search_conv, Option.getD_some]
         exact List.prefix_refl _)
      | simp_all [fetch_act, search_act, gpt_act, upd]

/-- Witness for C6 amended: the concrete already-active thread of the C6
counterexample, with a one-message fetch. -/
theorem c6_amended_witness :
    is_recent_message cfgA (evA "<@B>").ts_val = true ∧
    ((((stC6A.conversation_memory (event_thread_ts (evA "<@B>"))).getD []) ++
        (([some "a"].filterMap id).map (fun txt => (⟨"user", txt⟩ : Message)))) <+:
      (((handle_mention cfgA stC6A (evA "<@B>") oracleC6).1.conversation_memory
          (event_thread_ts (evA "<@B>"))).getD [])) ∧
    (handle_mention cfgA stC6A (evA "<@B>") oracleC6).1.active_threads
      (event_thread_ts (evA "<@B>")) = true := by
  refine ⟨by decide, ?_, ?_⟩
  · exact (c6_amended_backfill_every_mention cfgA stC6A (evA "<@B>") oracleC6 [some "a"]
      (by decide) rfl).1
  · exact (c6_amended_backfill_every_mention cfgA stC6A (evA "<@B>") oracleC6 [some "a"]
      (by decide) rfl).2

/-! ## C10: no eviction, no expiration -/

/-- C10: no operation ever removes per-thread state: history, search cache,
active-set and last-activity entries are only added or overwritten, the
paused set is never touched, the silenced set shrinks only on an
exact-mention reactivation of that very thread, and both handlers are
independent of the `INACTIVE_THREAD_EXPIRATION` configuration constant. -/
theorem c10_no_state_removal (cfg : Config) (st : BotState) (ev : SlackEvent) (o : Oracles)
    (k : String) (n1 n2 : Nat) :
    ((st.conversation_memory k).isSome →
      ((handle_mention cfg st ev o).1.conversation_memory k).isSome) ∧
    ((st.conversation_memory k).isSome →
      ((handle_message cfg st ev o).1.conversation_memory k).isSome) ∧
    ((st.search_results_memory k).isSome →
      ((handle_mention cfg st ev o).1.search_results_memory k).isSome) ∧
    ((st.search_results_memory k).isSome →
      ((handle_message cfg st ev o).1.search_results_memory k).isSome) ∧
    (st.active_threads k = true → (handle_mention cfg st ev o).1.active_threads k = true) ∧
    (st.active_threads k = true → (handle_message cfg st ev o).1.active_threads k = true) ∧
    ((st.last_activity k).isSome → ((handle_mention cfg st ev o).1.last_activity k).isSome) ∧
    ((st.last_activity k).isSome → ((handle_message cfg st ev o).1.last_activity k).isSome) ∧
    (handle_mention cfg st ev o).1.paused_threads k = st.paused_threads k ∧
    (handle_message cfg st ev o).1.paused_threads k = st.paused_threads k ∧
    (st.silenced_threads k = true → (handle_message cfg st ev o).1.silenced_threads k = true) ∧
    (st.silenced_threads k = true →
      (handle_mention cfg st ev o).1.silenced_threads k = true ∨
        (pyStrip (pyStrip ev.text) = mention_token cfg ∧ k = event_thread_ts ev)) ∧
    handle_mention { cfg with INACTIVE_THREAD_EXPIRATION := n1 } st ev o =
      handle_mention { cfg with INACTIVE_THREAD_EXPIRATION := n2 } st ev o ∧
    handle_message { cfg with INACTIVE_THREAD_EXPIRATION := n1 } st ev o =
      handle_message { cfg with INACTIVE_THREAD_EXPIRATION := n2 } st ev o := by
  have hm := handle_mention_mono cfg st ev o
  have hg := handle_message_mono cfg st ev o
  exact ⟨hm.2.1 k, hg.2.1 k, hm.2.2.1 k, hg.2.2.1 k, hm.2.2.2.1 k, hg.2.2.2.1 k,
    hm.2.2.2.2.2 k, hg.2.2.2.2.2 k, hm.2.2.2.2.1 k, hg.2.2.2.2.1 k,
    handle_message_silenced_mono cfg st ev o k,
    handle_mention_silenced_cases cfg st ev o k, rfl, rfl⟩

/-- Witness for C10 at a concrete input: the silenced entry of thread `100`
survives a passive message, and the history entry survives a mention. -/
theorem c10_witness :
    stSilA.silenced_threads "100" = true ∧
    (handle_message cfgA stSilA (evA "x") oracleA).1.silenced_threads "100" = true := by
  refine ⟨by decide, ?_⟩
  exact (c10_no_state_removal cfgA stSilA (evA "x") oracleA "100" 1 2).2.2.2.2.2.2.2.2.2.2.1
    (by decide)

/-! ## C5: search failure isolation -/

/-- C5: for every thread and every search command whose SearchService call
fails (missing credentials, no results, or a thrown error), the search cache
entry for that thread (indeed the whole state) is exactly what it was before
the call, and a user-visible error-text reply is returned. -/
theorem c5_search_failure_isolation (cfg : Config) (st : BotState) (q t : String)
    (serp : String → SerpResult) (sumo : String → Option String) :
    (cfg.SERPAPI_API_KEY = "" →
      search_online cfg st q t serp sumo = (st, "❌ Search API key is missing.")) ∧
    (cfg.SERPAPI_API_KEY ≠ "" → serp q = .exn →
      search_online cfg st q t serp sumo = (st, "❌ Error fetching search results.")) ∧
    (cfg.SERPAPI_API_KEY ≠ "" → serp q = .dict none →
      search_online cfg st q t serp sumo = (st, "❌ No search results found.")) := by
  refine ⟨fun hk => by simp [search_online, hk],
    fun hk hs => by simp [search_online, hk, hs],
    fun hk hs => by simp [search_online, hk, hs]⟩

/-- Witness for C5 at a concrete failing call: SerpAPI throws on query `q`
in configuration `cfgA`, and the state (hence the cache) is untouched. -/
theorem c5_witness :
    cfgA.SERPAPI_API_KEY ≠ "" ∧
    search_online cfgA stActA "q" "100" (fun _ => .exn) (fun _ => none) =
      (stActA, "❌ Error fetching search results.") := by
  exact ⟨by decide, (c5_search_failure_isolation cfgA stActA "q" "100"
    (fun _ => .exn) (fun _ => none)).2.1 (by decide) rfl⟩

/-! ## C9: stale-event filtering -/

/-- C9: every inbound event (mention or passive message) whose timestamp is
earlier than the process start time leaves the state untouched and produces
no reply. -/
theorem c9_stale_events_dropped (cfg : Config) (st : BotState) (ev : SlackEvent)
    (o : Oracles) (h : ev.ts_val < cfg.BOT_START_TIME) :
    handle_mention cfg st ev o = (st, []) ∧ handle_message cfg st ev o = (st, []) := by
  have hr : is_recent_message cfg ev.ts_val = false := by
    simp [is_recent_message]; omega
  constructor <;> simp [handle_mention, handle_message, hr]

/-- Witness for C9: an event with timestamp `-3`, before start time `0`, is
dropped by both handlers. -/
theorem c9_witness :
    (-3 : Int) < cfgA.BOT_START_TIME ∧
    handle_mention cfgA stActA ⟨"hi", "100", -3, none, "C"⟩ oracleA = (stActA, []) ∧
    handle_message cfgA stActA ⟨"hi", "100", -3, none, "C"⟩ oracleA = (stActA, []) := by
  refine ⟨by decide, ?_, ?_⟩
  · exact (c9_stale_events_dropped cfgA stActA ⟨"hi", "100", -3, none, "C"⟩ oracleA
      (by decide)).1
  · exact (c9_stale_events_dropped cfgA stActA ⟨"hi", "100", -3, none, "C"⟩ oracleA
      (by decide)).2

/-! ## C3: chat exchange commit behavior -/

theorem ensure_key_srm (st : BotState) (t : String) :
    (ensure_key st t).search_results_memory = st.search_results_memory := by
  unfold ensure_key
  split <;> rfl

/-- C3 counterexample: a successful plain-chat exchange on an active thread
stores only the assistant turn — the user turn `hi` is never appended to the
stored history, contradicting "both the user turn and the assistant turn are
appended". -/
theorem c3_counterexample :
    (handle_message cfgA stActA (evA "hi") oracleOkYo).1.conversation_memory "100" =
      some [⟨"assistant", "yo"⟩] ∧
    (⟨"user", "hi"⟩ : Message) ∉ [(⟨"assistant", "yo"⟩ : Message)] ∧
    (handle_message cfgA stActA (evA "hi") oracleOkYo).2 = [⟨"yo", "100"⟩] := by
  refine ⟨by decide, by decide, by decide⟩

/-- C3 amended: on a successful completion exactly the assistant turn is
appended to the stored history (the user turn is not stored) and the
assistant reply is returned; on failure a distinct error text per category
(quota vs. other) is returned and the stored history content is unchanged. -/
theorem c3_amended_commit (st : BotState) (t u : String)
    (compl : List Message → OpenAIResult) (r e : String) :
    (compl (context_messages (ensure_key st t) t u) = .ok r →
      (get_gpt_response st t u compl).1.conversation_memory t =
        some (((st.conversation_memory t).getD []) ++ [⟨"assistant", r⟩]) ∧
      (get_gpt_response st t u compl).2 = r) ∧
    (compl (context_messages (ensure_key st t) t u) = .rateLimit →
      ((get_gpt_response st t u compl).1.conversation_memory t).getD [] =
        (st.conversation_memory t).getD [] ∧
      (get_gpt_response st t u compl).2 =
        "⚠️ OpenAI API quota exceeded. Please try again later.") ∧
    (compl (context_messages (ensure_key st t) t u) = .err e →
      ((get_gpt_response st t u compl).1.conversation_memory t).getD [] =
        (st.conversation_memory t).getD [] ∧
      (get_gpt_response st t u compl).2 = "❌ An error occurred: " ++ e) ∧
    "⚠️ OpenAI API quota exceeded. Please try again later." ≠
      "❌ An error occurred: " ++ e := by
  refine ⟨fun h => ?_, fun h => ?_, fun h => ?_, quota_text_ne_err_text e⟩
  · unfold get_gpt_response
    dsimp only
    rw [h]
    exact ⟨by simp [upd_self, ensure_key_conv_getD], rfl⟩
  · unfold get_gpt_response
    dsimp only
    rw [h]
    exact ⟨ensure_key_conv_getD st t t, rfl⟩
  · unfold get_gpt_response
    dsimp only
    rw [h]
    exact ⟨ensure_key_conv_getD st t t, rfl⟩

/-- Witness for C3 amended: a concrete successful exchange appends exactly
the assistant turn, and a concrete quota failure returns the quota text. -/
theorem c3_amended_witness :
    (get_gpt_response stActA "100" "hi" (fun _ => .ok "yo")).1.conversation_memory "100" =
      some [⟨"assistant", "yo"⟩] ∧
    (get_gpt_response stActA "100" "hi" (fun _ => .rateLimit)).2 =
      "⚠️ OpenAI API quota exceeded. Please try again later." := by
  constructor
  · have h := ((c3_amended_commit stActA "100" "hi" (fun _ => .ok "yo") "yo" "e").1 rfl).1
    simpa using h
  · exact ((c3_amended_commit stActA "100" "hi" (fun _ => .rateLimit) "r" "e").2.1 rfl).2

/-! ## C4: search-command classification and query extraction -/

theorem removeAllAux_no_occurrence (pat : List Char) (fuel : Nat) (l : List Char)
    (h : containsSubAux pat l = false) : removeAllAux pat fuel l = l := by
  induction fuel generalizing l with
  | zero => rfl
  | succ n ih =>
    cases l with
    | nil => rfl
    | cons c rest =>
      unfold containsSubAux at h
      simp only [Bool.or_eq_false_iff] at h
      unfold removeAllAux
      rw [if_neg (by simp [h.1])]
      rw [ih rest h.2]

theorem isPrefixOf_append_self (pat rest : List Char) : pat.isPrefixOf (pat ++ rest) = true := by
  simp [List.isPrefixOf_iff_prefix]

theorem removeAllAux_strip_head (pat rest : List Char) (hp : pat ≠ []) (fuel : Nat)
    (hf : 1 ≤ fuel) (h : containsSubAux pat rest = false) :
    removeAllAux pat fuel (pat ++ rest) = rest := by
  cases fuel with
  | zero => omega
  | succ n =>
    cases pat with
    | nil => exact absurd rfl hp
    | cons p ps =>
      show removeAllAux (p :: ps) (n + 1) ((p :: ps) ++ rest) = rest
      rw [List.cons_append]
      simp only [removeAllAux]
      rw [if_pos (by rw [← List.cons_append]; exact isPrefixOf_append_self (p :: ps) rest)]
      rw [show (p :: (ps ++ rest)).drop (p :: ps).length = rest by
        rw [← List.cons_append]; exact List.drop_left (p :: ps) rest]
      exact removeAllAux_no_occurrence _ _ _ h

/-- When the literal lowercase prefix `search:` opens the text and does not
reoccur, the query computed by the code is the remainder after the prefix,
trimmed. -/
theorem search_query_lowercase_head (rest : String)
    (h : pyContains rest "search:" = false) :
    search_query ("search:" ++ rest) = pyStrip rest := by
  unfold search_query pyRemoveAll
  have hd : (("search:" ++ rest) : String).data = "search:".data ++ rest.data :=
    string_data_append _ _
  rw [hd]
  rw [removeAllAux_strip_head "search:".data rest.data (by decide) _
    (by simp [List.length_append]) h]

/-- C4 counterexample: the text `SEARCH: cats` is classified as a search
(case-insensitive prefix check), but the query sent to the search call is the
unstripped `SEARCH: cats` — not the remainder `cats` — because
`str.replace("search:", "")` is case-sensitive. -/
theorem c4_counterexample :
    pyStartsWith (pyLower (pyStrip "SEARCH: cats")) "search:" = true ∧
    search_query (pyStrip "SEARCH: cats") = "SEARCH: cats" ∧
    pyStrip ⟨("SEARCH: cats").data.drop 7⟩ = "cats" ∧
    ("SEARCH: cats" : String) ≠ "cats" ∧
    (handle_message cfgA stActA (evA "SEARCH: cats") oracleA).2 =
      [⟨"🔎 *Google Search Results for:* `SEARCH: cats`\n🔹 *T* - <L>\n\n📝 *Summary of Results:*\nS",
        "100"⟩] := by
  refine ⟨by decide, by decide, by decide, by decide, by decide⟩

/-- C4 amended: whenever the lowercased trimmed text starts with `search:`,
the event is routed to the search call with query
`text.replace("search:", "").strip()` — all occurrences of the exact
lowercase substring removed, then trimmed. This equals the
remainder-after-prefix (trimmed) exactly when the prefix is written in
lowercase and `search:` does not reoccur in the remainder. -/
theorem c4_amended_search_classification (cfg : Config) (st : BotState) (ev : SlackEvent)
    (o : Oracles) (s rest : String) :
    (is_recent_message cfg ev.ts_val = true →
      st.silenced_threads (event_thread_ts ev) = false →
      st.paused_threads (event_thread_ts ev) = false →
      st.active_threads (event_thread_ts ev) = true →
      pyContains (pyLower (pyStrip ev.text)) "@killbot" = false →
      pyStartsWith (pyLower (pyStrip ev.text)) "search:" = true →
      handle_message cfg st ev o =
        ((search_online cfg st (search_query (pyStrip ev.text)) (event_thread_ts ev)
            o.serp o.summarize).1,
         [⟨(search_online cfg st (search_query (pyStrip ev.text)) (event_thread_ts ev)
            o.serp o.summarize).2, event_thread_ts ev⟩])) ∧
    (is_recent_message cfg ev.ts_val = true →
      pyStrip (pyStrip ev.text) ≠ mention_token cfg →
      pyContains (pyLower (pyStrip ev.text)) "@killbot" = false →
      st.silenced_threads (event_thread_ts ev) = false →
      pyStartsWith (pyLower (pyStrip ev.text)) "search:" = true →
      (handle_mention cfg st ev o).2 =
        [⟨(search_online cfg st (search_query (pyStrip ev.text)) (event_thread_ts ev)
            o.serp o.summarize).2, event_thread_ts ev⟩]) ∧
    (s = "search:" ++ rest → pyContains rest "search:" = false →
      search_query s = pyStrip rest) := by
  refine ⟨fun h1 h2 h3 h4 h5 h6 => ?_, fun h1 h2 h3 h4 h5 => ?_, fun hs hc => ?_⟩
  · unfold handle_message
    dsimp only
    split_ifs <;> simp_all
  · unfold handle_mention
    dsimp only
    split_ifs <;> simp_all [fetch_sil] <;>
      rw [search_reply_indep cfg _ st (search_query (pyStrip ev.text)) (event_thread_ts ev)
        o.serp o.summarize]
  · rw [hs]
    exact search_query_lowercase_head rest hc

/-- Witness for C4 amended: the concrete lowercase command `search: cats`
routes to the search call with query `cats`. -/
theorem c4_amended_witness :
    (handle_message cfgA stActA (evA "search: cats") oracleA).2 =
      [⟨(search_online cfgA stActA (search_query (pyStrip "search: cats")) "100"
          oracleA.serp oracleA.summarize).2, "100"⟩] ∧
    search_query ("search:" ++ " cats") = pyStrip " cats" := by
  constructor
  · have h := (c4_amended_search_classification cfgA stActA (evA "search: cats") oracleA
      "x" "x").1 (by decide) (by decide) (by decide) (by decide) (by decide) (by decide)
    rw [show (handle_message cfgA stActA (evA "search: cats") oracleA).2 =
      [⟨(search_online cfgA stActA (search_query (pyStrip "search: cats")) "100"
          oracleA.serp oracleA.summarize).2, "100"⟩] from congrArg Prod.snd h]
  · exact (c4_amended_search_classification cfgA stActA (evA "search: cats") oracleA
      ("search:" ++ " cats") " cats").2.2 rfl (by decide)

/-! ## C7: context assembly -/

/-- C7: the context sent to the completion service is one system entry
holding the cached search results (present exactly when the thread has a
cache entry), then the most recent `MAX_MESSAGES_TO_KEEP` stored history
entries in oldest-to-newest order (a suffix of the stored history of length
`min |history| MAX_MESSAGES_TO_KEEP`), then the new user message last; the
history-entry creation performed by `get_gpt_response` does not change this
context. -/
theorem c7_context_structure (st : BotState) (t u : String) :
    (∀ c : SearchCache, st.search_results_memory t = some c →
      context_messages st t u =
        ⟨"system", "Previous search results:\n" ++ c.results⟩ ::
          (takeLast MAX_MESSAGES_TO_KEEP ((st.conversation_memory t).getD []) ++
            [⟨"user", u⟩])) ∧
    (st.search_results_memory t = none →
      context_messages st t u =
        takeLast MAX_MESSAGES_TO_KEEP ((st.conversation_memory t).getD []) ++
          [⟨"user", u⟩]) ∧
    (takeLast MAX_MESSAGES_TO_KEEP ((st.conversation_memory t).getD [])).length =
      min ((st.conversation_memory t).getD []).length MAX_MESSAGES_TO_KEEP ∧
    takeLast MAX_MESSAGES_TO_KEEP ((st.conversation_memory t).getD []) <:+
      ((st.conversation_memory t).getD []) ∧
    context_messages (ensure_key st t) t u = context_messages st t u := by
  refine ⟨fun c hc => ?_, fun hc => ?_, takeLast_length _ _, takeLast_suffix _ _, ?_⟩
  · unfold context_messages
    rw [hc]
    rfl
  · unfold context_messages
    rw [hc]
    rfl
  · unfold context_messages
    rw [ensure_key_conv_getD, ensure_key_srm]

/-- Witness for C7 at a concrete state with a cache entry and one stored
history entry. -/
theorem c7_witness :
    stCacheA.search_results_memory "100" = some ⟨"R", "S"⟩ ∧
    context_messages stCacheA "100" "q" =
      ⟨"system", "Previous search results:\nR"⟩ ::
        (takeLast MAX_MESSAGES_TO_KEEP ((stCacheA.conversation_memory "100").getD []) ++
          [⟨"user", "q"⟩]) := by
  refine ⟨by decide, ?_⟩
  exact (c7_context_structure stCacheA "100" "q").1 ⟨"R", "S"⟩ (by decide)

/-! ## C8: channel filtering -/

/-- C8 counterexample: a mention event in channel `OTHER`, different from the
configured channel `C`, is processed anyway — it activates the thread and
produces a greeting reply. Neither handler consults the event channel. -/
theorem c8_counterexample :
    ("OTHER" : String) ≠ cfgA.SLACK_CHANNEL_ID ∧
    initState.active_threads "100" = false ∧
    (handle_mention cfgA initState ⟨"<@B>", "100", 5, none, "OTHER"⟩ oracleA).1.active_threads
      "100" = true ∧
    (handle_mention cfgA initState ⟨"<@B>", "100", 5, none, "OTHER"⟩ oracleA).2 =
      [⟨"👋 Hello! How can I help you today?", "100"⟩] := by
  refine ⟨by decide, by decide, by decide, by decide⟩

/-- C8 amended: events are processed identically whatever their channel, and
the configured channel identifier plays no role in event handling — the
channel field and `SLACK_CHANNEL_ID` are never consulted. -/
theorem c8_amended_channel_ignored (cfg : Config) (st : BotState) (ev : SlackEvent)
    (o : Oracles) (c1 c2 : String) :
    handle_mention cfg st { ev with channel := c1 } o =
      handle_mention cfg st { ev with channel := c2 } o ∧
    handle_message cfg st { ev with channel := c1 } o =
      handle_message cfg st { ev with channel := c2 } o ∧
    handle_mention { cfg with SLACK_CHANNEL_ID := c1 } st ev o =
      handle_mention { cfg with SLACK_CHANNEL_ID := c2 } st ev o ∧
    handle_message { cfg with SLACK_CHANNEL_ID := c1 } st ev o =
      handle_message { cfg with SLACK_CHANNEL_ID := c2 } st ev o :=
  ⟨rfl, rfl, rfl, rfl⟩

end SlackGetBot
